import Mathlib

set_option linter.unusedVariables false

/-!
# VolleyConnect map screen: shallow embedding

A shallow embedding of the viewport-driven data-synchronization core of
`src/app/(tabs)/map.tsx`:

* `regionToBounds` — the GeoBounds calculator (source lines 20–26);
* `gamesQueryFor` — the read request built against the `games` table
  (source lines 99–111), with timestamps in milliseconds since epoch,
  mirroring `Date.now()`;
* `fetchGamesInRegion` — the session-list fetch (source lines 88–122),
  parameterised by the auth-session oracle and the remote store's reply;
* `scheduleFetch` plus a small timer runtime — the 450 ms debounce
  (source lines 124–129), with `setTimeout`/`clearTimeout` modelled as a
  list of armed timer entries addressed by handle;
* `onSelectGameStart` / `onSelectGameResume` — the two halves of
  `onSelectGame` (source lines 131–150), split at its `await` so that
  interleavings of two selections can be stated;
* `startup` — the mount effect (source lines 49–74).

React state cells become fields of `ScreenState`; each `Alert.alert` call
becomes an `AlertMsg` value accumulated in the outcome.
-/

namespace VolleyConnect

/-- Lifecycle status of a game session (source `Game.status`). -/
inductive GameStatus
  | active
  | cancelled
  | completed
  deriving DecidableEq, Repr

/-- A discoverable game session, the `Game` record of the source
(lines 7–18).  `starts_at` is a timestamp in milliseconds since epoch
(the source stores an ISO string whose ordering agrees with this). -/
structure Game where
  id : String
  title : String
  starts_at : Int
  location_name : Option String
  lat : ℚ
  lng : ℚ
  max_players : Nat
  skill_min : Option Int
  skill_max : Option Int
  status : GameStatus
  deriving DecidableEq, Repr

/-- A map viewport: center coordinates plus angular spans, the
`react-native-maps` `Region` consumed by the source. -/
structure Region where
  latitude : ℚ
  longitude : ℚ
  latitudeDelta : ℚ
  longitudeDelta : ℚ
  deriving DecidableEq, Repr

/-- A rectangular latitude/longitude bounding box. -/
structure GeoBounds where
  minLat : ℚ
  maxLat : ℚ
  minLng : ℚ
  maxLng : ℚ
  deriving DecidableEq, Repr

/-- `regionToBounds` (source lines 20–26): map a viewport to the bounding
box `center ± span/2`. -/
def regionToBounds (r : Region) : GeoBounds :=
  { minLat := r.latitude - r.latitudeDelta / 2
    maxLat := r.latitude + r.latitudeDelta / 2
    minLng := r.longitude - r.longitudeDelta / 2
    maxLng := r.longitude + r.longitudeDelta / 2 }

/-- The fully-specified read request the source builds against the
`games` table (lines 101–111): equality filter on `status`, lower bound
on `starts_at`, range filters on `lat` and `lng`, ordering and row cap. -/
structure GamesQuery where
  status_eq : GameStatus
  starts_at_gte : Int
  lat_gte : ℚ
  lat_lte : ℚ
  lng_gte : ℚ
  lng_lte : ℚ
  order_by_starts_at_ascending : Bool
  row_limit : Nat
  deriving DecidableEq, Repr

/-- Build the session-list query for bounds `b` at current time `now`
(milliseconds).  Mirrors source lines 99–111: `oneHourAgo` is
`Date.now() - 60 * 60 * 1000`, the filters come from the bounds, results
are ordered by `starts_at` ascending and capped at 200 rows. -/
def gamesQueryFor (now : Int) (b : GeoBounds) : GamesQuery :=
  { status_eq := GameStatus.active
    starts_at_gte := now - 60 * 60 * 1000
    lat_gte := b.minLat
    lat_lte := b.maxLat
    lng_gte := b.minLng
    lng_lte := b.maxLng
    order_by_starts_at_ascending := true
    row_limit := 200 }

/-- The distinct `Alert.alert` calls the screen can raise. -/
inductive AlertMsg
  | locationNeeded
  | notLoggedIn
  | queryError (msg : String)
  deriving DecidableEq, Repr

/-- The React state cells of `MapScreen` (source lines 36–44). -/
structure ScreenState where
  loadingLocation : Bool
  region : Option Region
  loadingGames : Bool
  games : List Game
  selected : Option Game
  playerCount : Option Nat
  loadingCount : Bool
  deriving DecidableEq, Repr

/-- Reply of the remote store to the session-list query: either rows
(possibly absent, the `data ?? []` case) or an error message. -/
inductive QueryReply
  | ok (rows : Option (List Game))
  | err (msg : String)
  deriving DecidableEq, Repr

/-- Reply of the remote store to the participant-count query: either a
(possibly null) count or an error message. -/
inductive CountReply
  | ok (count : Option Nat)
  | err (msg : String)
  deriving DecidableEq, Repr

/-- Result of running one of the screen's effects: the final state, the
alerts raised (in order), and the read requests issued to the store. -/
structure FetchOutcome where
  state : ScreenState
  alerts : List AlertMsg
  queries : List GamesQuery
  deriving DecidableEq, Repr

/-- `ensureAuthedOrWarn` (source lines 76–86): consult the auth session;
without one, raise the "Not logged in" alert and report failure. -/
def ensureAuthedOrWarn (hasSession : Bool) : Bool × List AlertMsg :=
  if hasSession then (true, []) else (false, [AlertMsg.notLoggedIn])

/-- The synchronous state writes performed after the auth gate and before
the query executes (source lines 94–96): set the games-loading flag and
clear the Selection. -/
def fetchGamesPreQuery (s : ScreenState) : ScreenState :=
  { s with loadingGames := true, selected := none, playerCount := none }

/-- `fetchGamesInRegion` (source lines 88–122): gate on auth, clear the
Selection, issue the query built from the region's bounds, then either
replace the games list (success) or alert and leave it unchanged
(failure).  `hasSession` is the auth oracle and `reply` the store's
answer to the single query issued. -/
def fetchGamesInRegion (hasSession : Bool) (now : Int) (reply : QueryReply)
    (s : ScreenState) (r : Region) : FetchOutcome :=
  match ensureAuthedOrWarn hasSession with
  | (false, warn) => { state := s, alerts := warn, queries := [] }
  | (true, _) =>
    let b := regionToBounds r
    let s1 := fetchGamesPreQuery s
    let q := gamesQueryFor now b
    let s2 := { s1 with loadingGames := false }
    match reply with
    | QueryReply.err msg =>
      { state := s2, alerts := [AlertMsg.queryError msg], queries := [q] }
    | QueryReply.ok rows =>
      { state := { s2 with games := rows.getD [] }, alerts := [], queries := [q] }

/-- First half of `onSelectGame` (source lines 131–134), up to the
`await`: record the tapped session, clear the previous count, set the
count-loading flag.  The count query for `g.id` is sent here. -/
def onSelectGameStart (s : ScreenState) (g : Game) : ScreenState :=
  { s with selected := some g, playerCount := none, loadingCount := true }

/-- Second half of `onSelectGame` (source lines 142–149), the
continuation run when the count query resolves: clear the count-loading
flag, then store `count ?? 0` on success or leave the count null on
failure.  `g` is the session captured by the closure; note the body
never compares `g.id` with the current Selection, and neither branch
raises an alert. -/
def onSelectGameResume (g : Game) (reply : CountReply)
    (s : ScreenState) : ScreenState × List AlertMsg :=
  let s1 := { s with loadingCount := false }
  match reply with
  | CountReply.err _ => ({ s1 with playerCount := none }, [])
  | CountReply.ok c => ({ s1 with playerCount := some (c.getD 0) }, [])

/-- `onSelectGame` run without interleaving: the continuation resumes on
the state the first half produced. -/
def onSelectGame (g : Game) (reply : CountReply)
    (s : ScreenState) : ScreenState × List AlertMsg :=
  onSelectGameResume g reply (onSelectGameStart s g)

/-- Device coordinates delivered by `Location.getCurrentPositionAsync`. -/
structure Coords where
  latitude : ℚ
  longitude : ℚ
  deriving DecidableEq, Repr

/-- The initial viewport built on location success (source lines 61–66):
centered on the device position with fixed 0.06-degree spans. -/
def initialRegion (c : Coords) : Region :=
  { latitude := c.latitude
    longitude := c.longitude
    latitudeDelta := 0.06
    longitudeDelta := 0.06 }

/-- The mount effect of `MapScreen` (source lines 49–74): request
location permission; on denial alert and stop; on success store the
initial viewport and immediately run `fetchGamesInRegion` on it, without
going through the debounce timer. -/
def startup (permissionGranted : Bool) (loc : Coords) (hasSession : Bool)
    (now : Int) (reply : QueryReply) (s : ScreenState) : FetchOutcome :=
  let s0 := { s with loadingLocation := true }
  if permissionGranted then
    let initial := initialRegion loc
    let s1 := { s0 with region := some initial, loadingLocation := false }
    fetchGamesInRegion hasSession now reply s1 initial
  else
    { state := { s0 with loadingLocation := false }
      alerts := [AlertMsg.locationNeeded]
      queries := [] }

/-- Debounce delay in milliseconds (source line 128). -/
def debounceMs : Nat := 450

/-- One armed `setTimeout` entry: its handle, the absolute time at which
it fires, and the region its callback will fetch. -/
structure TimerEntry where
  id : Nat
  fireAt : Nat
  region : Region
  deriving DecidableEq, Repr

/-- The timer runtime plus the screen's debounce state: the fresh-handle
counter, the armed timers, the `fetchTimer` ref (source line 47), and
the regions for which a fetch has been issued by a fired timer. -/
structure DebounceSys where
  nextId : Nat
  armed : List TimerEntry
  fetchTimer : Option Nat
  issued : List Region
  deriving DecidableEq, Repr

/-- The debounce state on mount: no timer armed, no fetch issued. -/
def initSys : DebounceSys :=
  { nextId := 0, armed := [], fetchTimer := none, issued := [] }

/-- `clearTimeout h`: disarm the timer with handle `h`, if armed. -/
def clearTimeout (h : Nat) (sys : DebounceSys) : DebounceSys :=
  { sys with armed := sys.armed.filter (fun e => decide (e.id ≠ h)) }

/-- `setTimeout` with delay `debounceMs` at current time `now`: arm a
fresh timer whose callback fetches region `r`; return its handle. -/
def setTimeout (now : Nat) (r : Region) (sys : DebounceSys) :
    Nat × DebounceSys :=
  (sys.nextId,
   { sys with
     nextId := sys.nextId + 1
     armed := sys.armed ++ [{ id := sys.nextId, fireAt := now + debounceMs, region := r }] })

/-- `scheduleFetch` (source lines 124–129) at current time `now`: if the
`fetchTimer` ref holds a handle, clear that timeout; then arm a fresh
450 ms timeout for region `r` and store its handle in the ref. -/
def scheduleFetch (now : Nat) (r : Region) (sys : DebounceSys) : DebounceSys :=
  let sys1 :=
    match sys.fetchTimer with
    | some h => clearTimeout h sys
    | none => sys
  let p := setTimeout now r sys1
  { p.2 with fetchTimer := some p.1 }

/-- Advance the timer runtime to time `t`: every armed timer due by `t`
fires (its callback issues the fetch for its region) and is disarmed. -/
def fireDue (t : Nat) (sys : DebounceSys) : DebounceSys :=
  { sys with
    issued := sys.issued ++ (sys.armed.filter (fun e => decide (e.fireAt ≤ t))).map TimerEntry.region
    armed := sys.armed.filter (fun e => decide (¬ e.fireAt ≤ t)) }

/-- Deliver one viewport-settle event `(t, r)`: time advances to `t`
(firing any due timer), then `onRegionChangeComplete` calls
`scheduleFetch` (source lines 180–183). -/
def stepEvent (sys : DebounceSys) (e : Nat × Region) : DebounceSys :=
  scheduleFetch e.1 e.2 (fireDue e.1 sys)

/-- Deliver a sequence of viewport-settle events in order. -/
def runEvents : List (Nat × Region) → DebounceSys → DebounceSys
  | [], sys => sys
  | e :: rest, sys => runEvents rest (stepEvent sys e)

/-- `rapidFrom t es`: the events `es` happen at nondecreasing times, the
first of them less than `debounceMs` after time `t`, and each later one
less than `debounceMs` after its predecessor. -/
def rapidFrom : Nat → List (Nat × Region) → Prop
  | _, [] => True
  | t, e :: rest => t ≤ e.1 ∧ e.1 < t + debounceMs ∧ rapidFrom e.1 rest

instance : ∀ t es, Decidable (rapidFrom t es) := fun t es => by
  induction es generalizing t with
  | nil => exact isTrue trivial
  | cons e rest ih =>
    haveI : Decidable (rapidFrom e.1 rest) := ih e.1
    simp only [rapidFrom]
    exact inferInstance

/-- The last event of `e :: es` (so `d` when `es` is empty). -/
def lastEvt (d : Nat × Region) : List (Nat × Region) → Nat × Region
  | [] => d
  | e :: rest => lastEvt e rest

/-- The debounce invariant after at least one viewport event `e`:
exactly one timer is armed, it is the one the `fetchTimer` ref points
to, and it fires `debounceMs` after `e`, fetching `e`'s region. -/
def armedFor (sys : DebounceSys) (e : Nat × Region) : Prop :=
  ∃ h, sys.fetchTimer = some h
    ∧ sys.armed = [{ id := h, fireAt := e.1 + debounceMs, region := e.2 }]
    ∧ h < sys.nextId

/-- The spec's concrete demonstration viewport:
`{lat 40.0, lng −74.0, latSpan 0.06, lngSpan 0.06}`. -/
def demoRegion : Region :=
  { latitude := 40, longitude := -74, latitudeDelta := 0.06, longitudeDelta := 0.06 }

/-- A second viewport, for the two-event debounce scenario. -/
def demoRegion2 : Region :=
  { latitude := 41, longitude := -75, latitudeDelta := 0.06, longitudeDelta := 0.06 }

/-- A concrete session used to exhibit the stale-count race. -/
def gameA : Game :=
  { id := "a", title := "Game A", starts_at := 0, location_name := none,
    lat := 0, lng := 0, max_players := 4, skill_min := none,
    skill_max := none, status := GameStatus.active }

/-- A second concrete session, with a different identifier. -/
def gameB : Game :=
  { id := "b", title := "Game B", starts_at := 0, location_name := none,
    lat := 1, lng := 1, max_players := 6, skill_min := none,
    skill_max := none, status := GameStatus.active }

/-- The screen state before any selection. -/
def freshState : ScreenState :=
  { loadingLocation := false, region := none, loadingGames := false,
    games := [], selected := none, playerCount := none, loadingCount := false }

lemma stepEvent_armedFor (sys : DebounceSys) (d e : Nat × Region)
    (hinv : armedFor sys d) (h1 : d.1 ≤ e.1) (h2 : e.1 < d.1 + debounceMs) :
    armedFor (stepEvent sys e) e ∧ (stepEvent sys e).issued = sys.issued := by
  obtain ⟨h, hft, harm, hlt⟩ := hinv
  have hnotdue : ¬ (d.1 + debounceMs ≤ e.1) := by omega
  constructor
  · refine ⟨sys.nextId, ?_, ?_, ?_⟩ <;>
      simp [stepEvent, fireDue, scheduleFetch, clearTimeout, setTimeout,
        harm, hft, hnotdue]
  · simp [stepEvent, fireDue, scheduleFetch, clearTimeout, setTimeout,
      harm, hft, hnotdue]

lemma stepEvent_init (e : Nat × Region) :
    armedFor (stepEvent initSys e) e ∧ (stepEvent initSys e).issued = [] := by
  constructor
  · exact ⟨0, by simp [stepEvent, fireDue, scheduleFetch, setTimeout, initSys]⟩
  · simp [stepEvent, fireDue, scheduleFetch, setTimeout, initSys]

lemma runEvents_armedFor (es : List (Nat × Region)) :
    ∀ (sys : DebounceSys) (d : Nat × Region), armedFor sys d → rapidFrom d.1 es →
      armedFor (runEvents es sys) (lastEvt d es)
        ∧ (runEvents es sys).issued = sys.issued := by
  induction es with
  | nil => exact fun sys d hinv _ => ⟨hinv, rfl⟩
  | cons e rest ih =>
    intro sys d hinv hrapid
    obtain ⟨h1, h2, h3⟩ := hrapid
    have step := stepEvent_armedFor sys d e hinv h1 h2
    have main := ih (stepEvent sys e) e step.1 h3
    exact ⟨main.1, main.2.trans step.2⟩

lemma fireDue_final (sys : DebounceSys) (d : Nat × Region)
    (hinv : armedFor sys d) (hiss : sys.issued = []) :
    (fireDue (d.1 + debounceMs) sys).issued = [d.2]
      ∧ (fireDue (d.1 + debounceMs) sys).armed = [] := by
  obtain ⟨h, hft, harm, hlt⟩ := hinv
  constructor <;> simp [fireDue, harm, hiss]

lemma rapidFrom_append (t : Nat) (xs ys : List (Nat × Region)) :
    rapidFrom t (xs ++ ys) → rapidFrom t xs := by
  induction xs generalizing t with
  | nil => exact fun _ => trivial
  | cons x rest ih =>
    rintro ⟨h1, h2, h3⟩
    exact ⟨h1, h2, ih x.1 h3⟩

/-- C1: for every sequence of viewport-change events `e₀ :: es` delivered
with less than the 450 ms debounce interval between consecutive events,
once the timer fires exactly one fetch has been issued and it is for the
region of the last event; and after every prefix of the sequence at most
one timer is armed and no fetch has been issued.  Arming always cancels
the previously armed, unfired timer (`scheduleFetch` clears the
`fetchTimer` handle before calling `setTimeout`). -/
theorem debounce_coalesces_rapid_events (e₀ : Nat × Region)
    (es : List (Nat × Region)) (hrapid : rapidFrom e₀.1 es) :
    ((fireDue ((lastEvt e₀ es).1 + debounceMs) (runEvents (e₀ :: es) initSys)).issued
        = [(lastEvt e₀ es).2]
      ∧ (fireDue ((lastEvt e₀ es).1 + debounceMs) (runEvents (e₀ :: es) initSys)).armed
        = [])
    ∧ ∀ pre suf, e₀ :: es = pre ++ suf →
        (runEvents pre initSys).armed.length ≤ 1
          ∧ (runEvents pre initSys).issued = [] := by
  have hinit := stepEvent_init e₀
  have hrun := runEvents_armedFor es (stepEvent initSys e₀) e₀ hinit.1 hrapid
  constructor
  · have hiss : (runEvents es (stepEvent initSys e₀)).issued = [] :=
      hrun.2.trans hinit.2
    have hfinal := fireDue_final _ _ hrun.1 hiss
    simpa only [runEvents] using hfinal
  · rintro (_ | ⟨p, pre'⟩) suf heq
    · simp [runEvents, initSys]
    · obtain ⟨rfl, hes⟩ : e₀ = p ∧ es = pre' ++ suf := by
        exact ⟨(List.cons.injEq .. ▸ heq).1, (List.cons.injEq .. ▸ heq).2⟩
      have hr : rapidFrom e₀.1 pre' := rapidFrom_append _ _ _ (hes ▸ hrapid)
      have hrun' := runEvents_armedFor pre' (stepEvent initSys e₀) e₀ hinit.1 hr
      obtain ⟨h, hft, harm, _⟩ := hrun'.1
      constructor
      · simp only [runEvents]
        rw [harm]
        simp
      · simp only [runEvents]
        exact hrun'.2.trans hinit.2

/-- C1 witness: the spec's concrete scenario, two viewport events 100 ms
apart; only the second event's region is fetched, 450 ms after it. -/
theorem debounce_coalesces_rapid_events_witness :
    rapidFrom 0 [(100, demoRegion2)]
    ∧ (((fireDue (100 + debounceMs)
          (runEvents [(0, demoRegion), (100, demoRegion2)] initSys)).issued
            = [demoRegion2]
        ∧ (fireDue (100 + debounceMs)
          (runEvents [(0, demoRegion), (100, demoRegion2)] initSys)).armed = [])
      ∧ ∀ pre suf, [(0, demoRegion), (100, demoRegion2)] = pre ++ suf →
          (runEvents pre initSys).armed.length ≤ 1
            ∧ (runEvents pre initSys).issued = []) :=
  ⟨by decide,
    debounce_coalesces_rapid_events (0, demoRegion) [(100, demoRegion2)] (by decide)⟩

/-- C4: for every viewport with positive spans the bounds are ordered and
symmetric around the center (`min = center − span/2`,
`max = center + span/2`), and the concrete viewport
`{lat 40, lng −74, spans 0.06}` maps to
`{minLat 39.97, maxLat 40.03, minLng −74.03, maxLng −73.97}`. -/
theorem regionToBounds_ordered_symmetric (r : Region)
    (hlat : 0 < r.latitudeDelta) (hlng : 0 < r.longitudeDelta) :
    ((regionToBounds r).minLat ≤ (regionToBounds r).maxLat
      ∧ (regionToBounds r).minLng ≤ (regionToBounds r).maxLng)
    ∧ ((regionToBounds r).minLat = r.latitude - r.latitudeDelta / 2
      ∧ (regionToBounds r).maxLat = r.latitude + r.latitudeDelta / 2
      ∧ (regionToBounds r).minLng = r.longitude - r.longitudeDelta / 2
      ∧ (regionToBounds r).maxLng = r.longitude + r.longitudeDelta / 2)
    ∧ regionToBounds demoRegion
        = { minLat := 39.97, maxLat := 40.03, minLng := -74.03, maxLng := -73.97 } := by
  refine ⟨⟨?_, ?_⟩, ⟨rfl, rfl, rfl, rfl⟩, ?_⟩
  · simp only [regionToBounds]
    linarith
  · simp only [regionToBounds]
    linarith
  · simp only [regionToBounds, demoRegion, GeoBounds.mk.injEq]
    norm_num

/-- C4 witness: the general part applied to the concrete viewport. -/
theorem regionToBounds_ordered_symmetric_witness :
    ((0 : ℚ) < demoRegion.latitudeDelta ∧ (0 : ℚ) < demoRegion.longitudeDelta)
    ∧ (((regionToBounds demoRegion).minLat ≤ (regionToBounds demoRegion).maxLat
        ∧ (regionToBounds demoRegion).minLng ≤ (regionToBounds demoRegion).maxLng)
      ∧ ((regionToBounds demoRegion).minLat
            = demoRegion.latitude - demoRegion.latitudeDelta / 2
        ∧ (regionToBounds demoRegion).maxLat
            = demoRegion.latitude + demoRegion.latitudeDelta / 2
        ∧ (regionToBounds demoRegion).minLng
            = demoRegion.longitude - demoRegion.longitudeDelta / 2
        ∧ (regionToBounds demoRegion).maxLng
            = demoRegion.longitude + demoRegion.longitudeDelta / 2)
      ∧ regionToBounds demoRegion
          = { minLat := 39.97, maxLat := 40.03, minLng := -74.03, maxLng := -73.97 }) :=
  ⟨⟨by norm_num [demoRegion], by norm_num [demoRegion]⟩,
    regionToBounds_ordered_symmetric demoRegion
      (by norm_num [demoRegion]) (by norm_num [demoRegion])⟩

/-- C2: for an authenticated user, every session-list fetch for region
`r` issues exactly one read request, built as: status = active,
scheduled start ≥ now − 3600 seconds (times in milliseconds), latitude
and longitude within the region's bounds, ordered by scheduled start
ascending, capped at 200 rows; and on success the returned rows fully
replace the visible session list. -/
theorem session_query_fully_specified (now : Int) (rows : List Game)
    (s : ScreenState) (r : Region) :
    (∀ reply, (fetchGamesInRegion true now reply s r).queries
        = [{ status_eq := GameStatus.active
             starts_at_gte := now - 3600 * 1000
             lat_gte := (regionToBounds r).minLat
             lat_lte := (regionToBounds r).maxLat
             lng_gte := (regionToBounds r).minLng
             lng_lte := (regionToBounds r).maxLng
             order_by_starts_at_ascending := true
             row_limit := 200 }])
    ∧ (fetchGamesInRegion true now (QueryReply.ok (some rows)) s r).state.games
        = rows := by
  constructor
  · intro reply
    cases reply <;>
      simp [fetchGamesInRegion, ensureAuthedOrWarn, gamesQueryFor, GamesQuery.mk.injEq]
  · simp [fetchGamesInRegion, ensureAuthedOrWarn, fetchGamesPreQuery]

/-- C5: a failed session-list query leaves the visible session list
unchanged and surfaces the error to the user; a failed player-count
query leaves the count null, clears the count-loading flag, and raises
no alert. -/
theorem failures_preserve_state (now : Int) (msg cmsg : String)
    (s t : ScreenState) (r : Region) (g : Game) :
    ((fetchGamesInRegion true now (QueryReply.err msg) s r).state.games = s.games
      ∧ (fetchGamesInRegion true now (QueryReply.err msg) s r).alerts
          = [AlertMsg.queryError msg])
    ∧ ((onSelectGame g (CountReply.err cmsg) t).1.playerCount = none
      ∧ (onSelectGame g (CountReply.err cmsg) t).1.loadingCount = false
      ∧ (onSelectGame g (CountReply.err cmsg) t).2 = []) := by
  refine ⟨⟨?_, rfl⟩, rfl, rfl, rfl⟩
  simp [fetchGamesInRegion, ensureAuthedOrWarn, fetchGamesPreQuery]

/-- C6: without an authenticated session the fetch issues no read request
at all and surfaces the "Not logged in" precondition alert, which is a
different alert from every query-error alert; conversely a read request
is only ever issued when the auth check succeeded. -/
theorem auth_gate_blocks_query (now : Int) (reply : QueryReply)
    (s : ScreenState) (r : Region) :
    ((fetchGamesInRegion false now reply s r).queries = []
      ∧ (fetchGamesInRegion false now reply s r).alerts = [AlertMsg.notLoggedIn]
      ∧ ∀ m, AlertMsg.notLoggedIn ≠ AlertMsg.queryError m)
    ∧ ∀ b, (fetchGamesInRegion b now reply s r).queries ≠ [] → b = true := by
  refine ⟨⟨rfl, rfl, fun m => by simp⟩, ?_⟩
  intro b
  cases b
  · intro hne
    exact absurd rfl hne
  · intro _
    rfl

/-- C6 witness: the auth gate at a concrete call. -/
theorem auth_gate_blocks_query_witness :
    ((fetchGamesInRegion false 0 (QueryReply.ok none) freshState demoRegion).queries = []
      ∧ (fetchGamesInRegion false 0 (QueryReply.ok none) freshState demoRegion).alerts
          = [AlertMsg.notLoggedIn]
      ∧ ∀ m, AlertMsg.notLoggedIn ≠ AlertMsg.queryError m)
    ∧ ∀ b, (fetchGamesInRegion b 0 (QueryReply.ok none) freshState demoRegion).queries ≠ []
        → b = true :=
  auth_gate_blocks_query 0 (QueryReply.ok none) freshState demoRegion

/-- C7: whenever an authenticated fetch runs, exactly one query is
issued, and the Selection (selected session and player count) is cleared
in the synchronous pre-query state and is still clear in the final
state, whether the query succeeds or fails. -/
theorem selection_cleared_before_query (now : Int) (s : ScreenState) (r : Region) :
    ((fetchGamesPreQuery s).selected = none
      ∧ (fetchGamesPreQuery s).playerCount = none)
    ∧ ∀ reply,
        (fetchGamesInRegion true now reply s r).queries
            = [gamesQueryFor now (regionToBounds r)]
        ∧ (fetchGamesInRegion true now reply s r).state.selected = none
        ∧ (fetchGamesInRegion true now reply s r).state.playerCount = none := by
  refine ⟨⟨rfl, rfl⟩, ?_⟩
  intro reply
  cases reply <;> simp [fetchGamesInRegion, ensureAuthedOrWarn, fetchGamesPreQuery]

/-- C8: on permission denial the startup effect raises the location
alert and stops — no query is issued and the screen state keeps its
games and region; on location success the initial viewport is centered
on the device position with fixed 0.06-degree spans, stored in state,
and its query is issued immediately by calling the fetch directly (the
debounce timer is never involved: `startup` does not touch
`DebounceSys`). -/
theorem startup_denial_halts_success_fetches (loc : Coords) (hasSession : Bool)
    (now : Int) (reply : QueryReply) (s : ScreenState) :
    ((startup false loc hasSession now reply s).queries = []
      ∧ (startup false loc hasSession now reply s).alerts = [AlertMsg.locationNeeded]
      ∧ (startup false loc hasSession now reply s).state.games = s.games
      ∧ (startup false loc hasSession now reply s).state.region = s.region)
    ∧ ((initialRegion loc).latitude = loc.latitude
      ∧ (initialRegion loc).longitude = loc.longitude
      ∧ (initialRegion loc).latitudeDelta = 0.06
      ∧ (initialRegion loc).longitudeDelta = 0.06)
    ∧ ((startup true loc true now reply s).state.region = some (initialRegion loc)
      ∧ (startup true loc true now reply s).queries
          = [gamesQueryFor now (regionToBounds (initialRegion loc))]) := by
  refine ⟨⟨rfl, rfl, rfl, rfl⟩, ⟨rfl, rfl, rfl, rfl⟩, ?_, ?_⟩ <;>
    cases reply <;>
    simp [startup, fetchGamesInRegion, ensureAuthedOrWarn, fetchGamesPreQuery]

/-- C9: when the auth check fails, `fetchGamesInRegion` returns before
mutating anything: the whole screen state is exactly as it was, and no
query is issued. -/
theorem auth_failure_mutates_nothing (now : Int) (reply : QueryReply)
    (s : ScreenState) (r : Region) :
    (fetchGamesInRegion false now reply s r).state = s
      ∧ (fetchGamesInRegion false now reply s r).state.games = s.games
      ∧ (fetchGamesInRegion false now reply s r).state.selected = s.selected
      ∧ (fetchGamesInRegion false now reply s r).state.playerCount = s.playerCount
      ∧ (fetchGamesInRegion false now reply s r).state.loadingGames = s.loadingGames
      ∧ (fetchGamesInRegion false now reply s r).queries = [] :=
  ⟨rfl, rfl, rfl, rfl, rfl, rfl⟩

/-- C10: every completion of the count fetch clears the count-loading
flag, and a successful completion always stores a non-null count, with a
null count in the reply coerced to 0. -/
theorem count_completion_normalizes (g : Game) (s : ScreenState) :
    (∀ reply, (onSelectGameResume g reply s).1.loadingCount = false)
    ∧ (∀ c, (onSelectGameResume g (CountReply.ok c) s).1.playerCount
        = some (c.getD 0))
    ∧ (onSelectGameResume g (CountReply.ok none) s).1.playerCount = some 0 := by
  refine ⟨?_, fun c => rfl, rfl⟩
  intro reply
  cases reply <;> rfl

/-- C3 exhibit: select `gameA`, then select `gameB` before A's count
query resolves, then let A's count query resolve with 5.  The source
continuation stores the stale count and clears the loading flag without
comparing the resolved session identifier against the current Selection,
so the final state shows session B with session A's count — the discard
the claim requires does not happen in the code. -/
theorem stale_count_overwrites_newer_selection :
    ((onSelectGameResume gameA (CountReply.ok (some 5))
        (onSelectGameStart (onSelectGameStart freshState gameA) gameB)).1.selected
      = some gameB)
    ∧ ((onSelectGameResume gameA (CountReply.ok (some 5))
        (onSelectGameStart (onSelectGameStart freshState gameA) gameB)).1.playerCount
      = some 5)
    ∧ ((onSelectGameResume gameA (CountReply.ok (some 5))
        (onSelectGameStart (onSelectGameStart freshState gameA) gameB)).1.loadingCount
      = false)
    ∧ gameA.id ≠ gameB.id :=
  ⟨rfl, rfl, rfl, by decide⟩

end VolleyConnect
